import Mathlib

/-!
Shallow embedding of `experiments/aubo_example/hyperparams.py` from the
aubo_gps repository: a configuration script for a guided-policy-search
trajectory-optimization experiment on an AUBO robot arm.

The script is a linear sequence of constant definitions, one loop over the
conditions that queries the robot transform tree, a directory check, and
the assembly of nested configuration dictionaries.  Python dictionaries with
string keys are embedded as association lists `List (String × Value)`;
numpy arrays of floats as `List ℚ`; the protobuf sensor-type enum as an
inductive type.  External calls (ROS node init, transform lookups, the
filesystem) are supplied by an environment structure; a second, fallible
run function threads `Except` through the external calls to study failure
propagation.
-/

namespace AuboGPS

/-- The protobuf sensor-type constants imported from `gps.proto.gps_pb2`
(distinct enum values; only distinctness matters to the script). -/
inductive SensorType where
  | JOINT_ANGLES
  | JOINT_VELOCITIES
  | END_EFFECTOR_POINTS
  | END_EFFECTOR_POINT_VELOCITIES
  | ACTION
  | TRIAL_ARM
  | JOINT_SPACE
deriving DecidableEq, Repr, BEq

/-- Topic for the robot publisher: `JOINT_PUBLISHER`. -/
def JOINT_PUBLISHER : String := "/arm_controller/command"

/-- Topic for the robot subscriber: `JOINT_SUBSCRIBER`. -/
def JOINT_SUBSCRIBER : String := "/arm_controller/state"

/-- Constant `SLOWNESS = 10.0`. -/
def SLOWNESS : ℚ := 10

/-- Constant `RESET_SLOWNESS = 2.0`. -/
def RESET_SLOWNESS : ℚ := 2

def SHOULDER_JOINT : String := "shoulder_joint"
def UPPERARM_JOINT : String := "upperArm_joint"
def FOREARM_JOINT : String := "foreArm_joint"
def WRIST1_JOINT : String := "wrist1_joint"
def WRIST2_JOINT : String := "wrist2_joint"
def WRIST3_JOINT : String := "wrist3_joint"

def PEDESTAL_LINK : String := "base_Link"
def SHOULDER_LINK : String := "shoulder_Link"
def UPPER_ARM_LINK : String := "upperArm_Link"
def FOREARM_LINK : String := "foreArm_Link"
def WRIST1_LINK : String := "wrist1_Link"
def WRIST2_LINK : String := "wrist2_Link"
def WRIST3_LINK : String := "wrist3_Link"

/-- Constant `INITIAL_JOINTS = [0, 0, 0, 0, 0, 0]`. -/
def INITIAL_JOINTS : List ℚ := [0, 0, 0, 0, 0, 0]

/-- Constant `NUM_EE_POINTS = 1`. -/
def NUM_EE_POINTS : ℕ := 1

/-- Constant `EE_POINTS = np.array([[0, 0, 0]])`, a 1×3 matrix. -/
def EE_POINTS : List (List ℚ) := [[0, 0, 0]]

/-- Number of columns of a row-major matrix: numpy `.shape[1]`. -/
def matShape1 (m : List (List ℚ)) : ℕ := (m.headD []).length

/-- Constant `EE_POS_TGT = np.asmatrix([.30, -0.30, .80])`: the hardcoded Cartesian
goal position. -/
def EE_POS_TGT : List ℚ := [3/10, -3/10, 4/5]

/-- Constant `EE_ROT_TGT`: the identity rotation matrix. -/
def EE_ROT_TGT : List (List ℚ) := [[1, 0, 0], [0, 1, 0], [0, 0, 1]]

/-- Constant `JOINT_ORDER`. -/
def JOINT_ORDER : List String :=
  [SHOULDER_JOINT, UPPERARM_JOINT, FOREARM_JOINT,
   WRIST1_JOINT, WRIST2_JOINT, WRIST3_JOINT]

/-- Constant `LINK_NAMES`. -/
def LINK_NAMES : List String :=
  [PEDESTAL_LINK, SHOULDER_LINK, UPPER_ARM_LINK, FOREARM_LINK,
   WRIST1_LINK, WRIST2_LINK, WRIST3_LINK]

/-- Constant `AUBO_GAINS = np.array([1, 1, 1, 1, 1, 1])`. -/
def AUBO_GAINS : List ℚ := [1, 1, 1, 1, 1, 1]

/-- Dictionary `SENSOR_DIMS`: the dictionary packaging sensor dimensional data, kept as
an association list so that `.values()` sums are faithful. -/
def SENSOR_DIMS : List (SensorType × ℕ) :=
  [(.JOINT_ANGLES, JOINT_ORDER.length),
   (.JOINT_VELOCITIES, JOINT_ORDER.length),
   (.END_EFFECTOR_POINTS, NUM_EE_POINTS * matShape1 EE_POINTS),
   (.END_EFFECTOR_POINT_VELOCITIES, NUM_EE_POINTS * matShape1 EE_POINTS),
   (.ACTION, AUBO_GAINS.length)]

/-- Dictionary lookup `SENSOR_DIMS[k]` (every key used by the script is
present, so the default is never hit). -/
def sensorDim (k : SensorType) : ℕ := (SENSOR_DIMS.lookup k).getD 0

/-- Constant `STATE_TYPES`. -/
def STATE_TYPES : List (String × SensorType) :=
  [("positions", .JOINT_ANGLES), ("velocities", .JOINT_VELOCITIES)]

/-- Constant `TREE_PATH`. -/
def TREE_PATH : String :=
  "/home/eric/aubo_ws/src/aubo_robot/aubo_description/urdf/aubo_i5_robot.urdf"

/-- Constant `BASE_DIR = join of str.split(gps_filepath, sep)[:-2]` where the path of
the installed `gps` package is an environment input. -/
def BASE_DIR (gpsFilepath : String) : String :=
  let parts := gpsFilepath.splitOn "/"
  String.intercalate "/" (parts.take (parts.length - 2))

/-- Constant `EXP_DIR = BASE_DIR + experiment subdirectory`. -/
def EXP_DIR (gpsFilepath : String) : String :=
  BASE_DIR gpsFilepath ++ "/../experiments/aubo_example/"

/-- Constant `TIMESTEP = 0.01`. -/
def TIMESTEP : ℚ := 1/100

/-- Constant `STEP_COUNT = 100`. -/
def STEP_COUNT : ℕ := 100

/-- Constant `SAMPLE_COUNT = 5`. -/
def SAMPLE_COUNT : ℕ := 5

/-- Constant `CONDITIONS = 1`. -/
def CONDITIONS : ℕ := 1

/-- Constant `ITERATIONS = 10`. -/
def ITERATIONS : ℕ := 10

/-- Loop-body value `state_space = sum(SENSOR_DIMS.values()) - SENSOR_DIMS[ACTION]`
(computed inside the loop body; it does not depend on the iteration). -/
def state_space : ℕ := (SENSOR_DIMS.map Prod.snd).sum - sensorDim .ACTION

/-- Loop-body value `joint_dim = SENSOR_DIMS[JOINT_ANGLES] + SENSOR_DIMS[JOINT_VELOCITIES]`. -/
def joint_dim : ℕ := sensorDim .JOINT_ANGLES + sensorDim .JOINT_VELOCITIES

/-- numpy slice assignment `xs[start : start + vals.length] = vals` on a
1-D array, as a pure function (both assignments in the script write a
slice that fits: `start + vals.length ≤ xs.length`). -/
def writeSlice (xs : List ℚ) (start : ℕ) (vals : List ℚ) : List ℚ :=
  xs.take start ++ vals ++ xs.drop (start + vals.length)

/-- Dot product of two rows. -/
def dot (u v : List ℚ) : ℚ := (List.zipWith (· * ·) u v).sum

/-- Matrix–vector product, rows as lists. -/
def matVec (m : List (List ℚ)) (v : List ℚ) : List ℚ :=
  m.map fun row => dot row v

/-- Modelled from the spec: the helper `get_ee_points` from
`gps.utility.general_utils` is repository code that is not under `src/`.
Per the description the spec gives of the initial/target end-effector poses, it
maps the end-effector offset points into the frame of the given pose:
each point is rotated by `rot` and translated by `pos`.  The helper
returns these as a 3×n matrix and the script immediately transposes it
back before flattening, so the embedding keeps one transformed point per
row: the composition `flatten(get_ee_points(...).T)` of the source is
exactly the row-major flattening of this list. -/
def get_ee_points (points : List (List ℚ)) (pos : List ℚ)
    (rot : List (List ℚ)) : List (List ℚ) :=
  points.map fun p => List.zipWith (· + ·) (matVec rot p) pos

/-- Values stored in the configuration dictionaries: numbers, strings,
booleans, references to framework classes/functions (opaque, by name),
numpy vectors and matrices, lists of vectors, the protobuf-keyed
sub-dictionaries, and nested string-keyed dictionaries. -/
inductive Value where
  | num : ℚ → Value
  | natv : ℕ → Value
  | str : String → Value
  | bool : Bool → Value
  | pyref : String → Value
  | vec : List ℚ → Value
  | mat : List (List ℚ) → Value
  | vecs : List (List ℚ) → Value
  | mats : List (List (List ℚ)) → Value
  | sensorMap : List (SensorType × ℕ) → Value
  | resetList : List (List (SensorType × List ℚ)) → Value
  | strList : List String → Value
  | sensorList : List SensorType → Value
  | stateTypes : List (String × SensorType) → Value
  | dict : List (String × Value) → Value
  | dictList : List (List (String × Value)) → Value

/-- Dictionary lookup `d[k]` on a string-keyed dictionary; the script only
looks up keys that are present. -/
def dget (d : List (String × Value)) (k : String) : Value :=
  (d.lookup k).getD (.str "KeyError")

/-- The results the script obtains from its surroundings: the installed
path of the `gps` package, the formatted current time, the transform-tree
answers per loop iteration, the filesystem, and the string returned by the
framework helper `generate_experiment_info`. -/
structure Env where
  gpsFilepath : String
  nowStr : String
  latestCommonTime : ℕ → ℚ
  position : ℕ → ℚ → ℚ × ℚ × ℚ
  fs : String → Bool
  expInfo : String

/-- Modelled from the spec: `get_position` from `gps.utility.general_utils`
is repository code not under `src/`; per the spec it returns the current
end-effector position (a 3-vector) given the transform listener, the two
link names and the looked-up common time.  In the embedding, the answer of the
transform tree at loop iteration `i` and time `t` is the environment
field `position i t`. -/
def get_position (env : Env) (i : ℕ) (t : ℚ) : List ℚ :=
  [(env.position i t).1, (env.position i t).2.1, (env.position i t).2.2]

/-- The name of the experiment output directory,
`common["data_files_dir"] = EXP_DIR + subdirectory`. -/
def data_files_dir (gpsFilepath : String) : String :=
  EXP_DIR gpsFilepath ++ "data_files/"

/-- The dictionary `common` as first assembled (before the final line adds
the `info` key). -/
def common_dict (gpsFilepath nowStr : String) : List (String × Value) :=
  [("experiment_name", .str ("my_experiment" ++ "_" ++ nowStr)),
   ("experiment_dir", .str (EXP_DIR gpsFilepath)),
   ("data_files_dir", .str (data_files_dir gpsFilepath)),
   ("target_filename", .str (EXP_DIR gpsFilepath ++ "target.npz")),
   ("log_filename", .str (EXP_DIR gpsFilepath ++ "log.txt")),
   ("conditions", .natv CONDITIONS)]

/-- Loop body, line by line: the initial-state vector `x0`, built from
`np.zeros(state_space)` by the two slice assignments
`x0[:SENSOR_DIMS[JOINT_ANGLES]] = ja_x0` and
`x0[joint_dim : joint_dim + NUM_EE_POINTS * EE_POINTS.shape[1]] = pos`,
where `pos` is the position returned by the transform lookup. -/
def x0_of_pos (pos : List ℚ) : List ℚ :=
  let ja_x0 := List.replicate (sensorDim .JOINT_ANGLES) (0 : ℚ)
  let x0 := List.replicate state_space (0 : ℚ)
  let x0 := writeSlice x0 0 ja_x0
  writeSlice x0 joint_dim pos

/-- The `x0` of loop iteration `i`: the transform lookup happens at the
latest common time of `WRIST3_LINK` and `PEDESTAL_LINK`. -/
def mk_x0 (env : Env) (i : ℕ) : List ℚ :=
  let time := env.latestCommonTime i
  x0_of_pos (get_position env i time)

/-- Loop-body value `ee_tgt = np.ndarray.flatten(get_ee_points(EE_POINTS, ee_pos_tgt,
ee_rot_tgt).T)` with `ee_pos_tgt = EE_POS_TGT` and
`ee_rot_tgt = EE_ROT_TGT`; it does not read the environment. -/
def mk_ee_tgt : List ℚ :=
  let ee_pos_tgt := EE_POS_TGT
  let ee_rot_tgt := EE_ROT_TGT
  (get_ee_points EE_POINTS ee_pos_tgt ee_rot_tgt).flatten

/-- The dictionary `reset_condition`, identical for every condition. -/
def mk_reset_condition : List (SensorType × List ℚ) :=
  [(.JOINT_ANGLES, INITIAL_JOINTS), (.JOINT_VELOCITIES, [])]

/-- The three lists the loop appends to. -/
structure CondLists where
  x0s : List (List ℚ)
  ee_tgts : List (List ℚ)
  reset_conditions : List (List (SensorType × List ℚ))
deriving Repr

/-- Loop `for i in xrange(n): ... x0s.append(x0); ee_tgts.append(ee_tgt);
reset_conditions.append(reset_condition)` — the loop after `n`
iterations, starting from the three empty lists. -/
def condLoop (env : Env) : ℕ → CondLists
  | 0 => ⟨[], [], []⟩
  | n + 1 =>
    let prev := condLoop env n
    ⟨prev.x0s ++ [mk_x0 env n],
     prev.ee_tgts ++ [mk_ee_tgt],
     prev.reset_conditions ++ [mk_reset_condition]⟩

/-- The dictionary `agent`, given the three lists built by the loop. -/
def agent_dict (gpsFilepath nowStr : String) (ls : CondLists) :
    List (String × Value) :=
  [("type", .pyref "AgentAUBOROS"),
   ("dt", .num TIMESTEP),
   ("dU", .natv (sensorDim .ACTION)),
   ("conditions", dget (common_dict gpsFilepath nowStr) "conditions"),
   ("T", .natv STEP_COUNT),
   ("x0", .vecs ls.x0s),
   ("ee_points_tgt", .vecs ls.ee_tgts),
   ("reset_conditions", .resetList ls.reset_conditions),
   ("sensor_dims", .sensorMap SENSOR_DIMS),
   ("joint_order", .strList JOINT_ORDER),
   ("link_names", .strList LINK_NAMES),
   ("state_types", .stateTypes STATE_TYPES),
   ("tree_path", .str TREE_PATH),
   ("joint_publisher", .str JOINT_PUBLISHER),
   ("joint_subscriber", .str JOINT_SUBSCRIBER),
   ("slowness", .num SLOWNESS),
   ("reset_slowness", .num RESET_SLOWNESS),
   ("state_include", .sensorList [.JOINT_ANGLES, .JOINT_VELOCITIES,
      .END_EFFECTOR_POINTS, .END_EFFECTOR_POINT_VELOCITIES]),
   ("end_effector_points", .mats [EE_POINTS]),
   ("obs_include", .sensorList [])]

/-- The dictionary `algorithm["init_traj_distr"]`; its `dt` and `T` entries
are read from the `agent` dictionary. -/
def init_traj_distr_dict (gpsFilepath nowStr : String) (ls : CondLists) :
    List (String × Value) :=
  [("type", .pyref "init_lqr"),
   ("init_gains", .vec (AUBO_GAINS.map fun g => 1 / g)),
   ("init_acc", .vec (List.replicate (sensorDim .ACTION) (0 : ℚ))),
   ("init_var", .num 1),
   ("stiffness", .num (1/2)),
   ("stiffness_vel", .num (1/4)),
   ("final_weight", .natv 50),
   ("dt", dget (agent_dict gpsFilepath nowStr ls) "dt"),
   ("T", dget (agent_dict gpsFilepath nowStr ls) "T")]

/-- The dictionary `fk_cost_ramp`. -/
def fk_cost_ramp : List (String × Value) :=
  [("type", .pyref "CostFK"),
   ("target_end_effector",
     .vecs [List.replicate (NUM_EE_POINTS * matShape1 EE_POINTS) (0 : ℚ)]),
   ("wp", .vec (List.replicate (sensorDim .END_EFFECTOR_POINTS) (1 : ℚ))),
   ("l1", .num (1/10)),
   ("l2", .num (1/10000)),
   ("ramp_option", .pyref "RAMP_LINEAR")]

/-- The dictionary `fk_cost_final`. -/
def fk_cost_final : List (String × Value) :=
  [("type", .pyref "CostFK"),
   ("target_end_effector",
     .vec (List.replicate (NUM_EE_POINTS * matShape1 EE_POINTS) (0 : ℚ))),
   ("wp", .vec (List.replicate (sensorDim .END_EFFECTOR_POINTS) (1 : ℚ))),
   ("l1", .num 1),
   ("l2", .num 0),
   ("wp_final_multiplier", .num 100),
   ("ramp_option", .pyref "RAMP_FINAL_ONLY")]

/-- The dictionary `algorithm` after all its mutating assignments
(`init_traj_distr`, `cost`, `dynamics`, `traj_opt`, `policy_opt`). -/
def algorithm_dict (gpsFilepath nowStr : String) (ls : CondLists) :
    List (String × Value) :=
  [("type", .pyref "AlgorithmTrajOpt"),
   ("conditions", dget (common_dict gpsFilepath nowStr) "conditions"),
   ("iterations", .natv ITERATIONS),
   ("init_traj_distr", .dict (init_traj_distr_dict gpsFilepath nowStr ls)),
   ("cost", .dict
     [("type", .pyref "CostSum"),
      ("costs", .dictList [fk_cost_ramp, fk_cost_final]),
      ("weights", .vec [1, 1])]),
   ("dynamics", .dict
     [("type", .pyref "DynamicsLRPrior"),
      ("regularization", .num (1/1000000)),
      ("prior", .dict
        [("type", .pyref "DynamicsPriorGMM"),
         ("max_clusters", .natv 20),
         ("min_samples_per_cluster", .natv 40),
         ("max_samples", .natv 20)])]),
   ("traj_opt", .dict [("type", .pyref "TrajOptLQRPython")]),
   ("policy_opt", .dict [])]

/-- The dictionary `common` as observed after the last line of the script,
which adds `common["info"] = generate_experiment_info(config)` (the
helper is framework code; its result string is the `expInfo` field of
the environment).  Since `config["common"]` aliases this dictionary, this is
also the `common` reachable from the final `config`. -/
def common_final (gpsFilepath nowStr expInfo : String) : List (String × Value) :=
  common_dict gpsFilepath nowStr ++ [("info", .str expInfo)]

/-- The top-level dictionary `config`. -/
def config_dict (gpsFilepath nowStr expInfo : String) (ls : CondLists) :
    List (String × Value) :=
  [("iterations", dget (algorithm_dict gpsFilepath nowStr ls) "iterations"),
   ("common", .dict (common_final gpsFilepath nowStr expInfo)),
   ("verbose_trials", .natv 0),
   ("agent", .dict (agent_dict gpsFilepath nowStr ls)),
   ("gui_on", .bool true),
   ("algorithm", .dict (algorithm_dict gpsFilepath nowStr ls)),
   ("num_samples", .natv SAMPLE_COUNT)]

/-- Running the whole script under `env`: the loop over
`common["conditions"]` followed by the configuration assembly. -/
def script (env : Env) : List (String × Value) :=
  config_dict env.gpsFilepath env.nowStr env.expInfo (condLoop env CONDITIONS)

/-- The filesystem after the directory check of the script: if
`common["data_files_dir"]` was absent, `os.makedirs` creates it, otherwise
nothing is done. -/
def fsAfter (env : Env) : String → Bool :=
  if env.fs (data_files_dir env.gpsFilepath) then env.fs
  else fun p => p == data_files_dir env.gpsFilepath || env.fs p

/-- The external calls the script issues, in program order: ROS node
initialization, construction of the transform listener, the fixed sleep
(argument in seconds), the latest-common-time lookup and the position
lookup between two named links, the directory check and creation, and the
final `generate_experiment_info` helper call. -/
inductive Event where
  | initNode : String → Event
  | mkListener : Event
  | sleep : ℚ → Event
  | lookupLatestCommonTime : String → String → Event
  | lookupPosition : String → String → Event
  | pathExists : String → Event
  | makedirs : String → Event
  | genInfo : Event
deriving DecidableEq, Repr

/-- Whether an event is a sleep call. -/
def Event.isSleep : Event → Bool
  | .sleep _ => true
  | _ => false

/-- The external calls of one loop iteration, in the order of the source:
`rospy.init_node`, `TransformListener()`, `rospy.sleep(1)`,
`tf.getLatestCommonTime(WRIST3_LINK, PEDESTAL_LINK)`,
`get_position(tf, WRIST3_LINK, PEDESTAL_LINK, time)`. -/
def iterTrace : List Event :=
  [.initNode "gps_agent_aubo_ros_node",
   .mkListener,
   .sleep 1,
   .lookupLatestCommonTime WRIST3_LINK PEDESTAL_LINK,
   .lookupPosition WRIST3_LINK PEDESTAL_LINK]

/-- The external calls of the first `n` loop iterations. -/
def loopTrace : ℕ → List Event
  | 0 => []
  | n + 1 => loopTrace n ++ iterTrace

/-- The full external-call trace of the script under `env`: the loop,
the directory check (with `os.makedirs` only when the directory is
absent), and the final info-generation call. -/
def scriptTrace (env : Env) : List Event :=
  loopTrace CONDITIONS
    ++ [.pathExists (data_files_dir env.gpsFilepath)]
    ++ (if env.fs (data_files_dir env.gpsFilepath) then []
        else [.makedirs (data_files_dir env.gpsFilepath)])
    ++ [.genInfo]

/-- A fallible environment: every external call the script performs may
fail with an uncaught exception, modelled as `Except String`. -/
structure FEnv where
  gpsFilepath : String
  nowStr : String
  initNode : Except String Unit
  latestCommonTime : ℕ → Except String ℚ
  position : ℕ → ℚ → Except String (ℚ × ℚ × ℚ)
  fs : String → Bool
  makedirs : Except String Unit
  expInfo : Except String String

/-- The loop under a fallible environment: every iteration initializes the
node, queries the latest common time and then the position; the first
failing call aborts the whole run with its error, since the script
installs no handler. -/
def runLoop (fenv : FEnv) : ℕ → Except String CondLists
  | 0 => .ok ⟨[], [], []⟩
  | n + 1 => do
    let prev ← runLoop fenv n
    let _ ← fenv.initNode
    let t ← fenv.latestCommonTime n
    let p ← fenv.position n t
    .ok ⟨prev.x0s ++ [x0_of_pos [p.1, p.2.1, p.2.2]],
         prev.ee_tgts ++ [mk_ee_tgt],
         prev.reset_conditions ++ [mk_reset_condition]⟩

/-- The whole script under a fallible environment: the loop, then the
directory check and creation, then the configuration assembly ending in
the `generate_experiment_info` call.  There is no recovery anywhere: the
result is the final config, or the error of the first failing call. -/
def runScript (fenv : FEnv) : Except String (List (String × Value)) := do
  let ls ← runLoop fenv CONDITIONS
  let _ ← if fenv.fs (data_files_dir fenv.gpsFilepath) then .ok ()
          else fenv.makedirs
  let info ← fenv.expInfo
  .ok (config_dict fenv.gpsFilepath fenv.nowStr info ls)

/-- Specification predicate: `e` is the error of the first external call
of the run to fail — each disjunct names one fallible call and requires
every call sequenced before it to succeed.  (`CONDITIONS = 1`, so the
loop body runs once, at index 0.) -/
def FailsFirst (fenv : FEnv) (e : String) : Prop :=
  (fenv.initNode = .error e)
  ∨ (fenv.initNode = .ok () ∧ fenv.latestCommonTime 0 = .error e)
  ∨ (∃ t, fenv.initNode = .ok () ∧ fenv.latestCommonTime 0 = .ok t
       ∧ fenv.position 0 t = .error e)
  ∨ ((∃ ls, runLoop fenv CONDITIONS = .ok ls)
       ∧ fenv.fs (data_files_dir fenv.gpsFilepath) = false
       ∧ fenv.makedirs = .error e)
  ∨ ((∃ ls, runLoop fenv CONDITIONS = .ok ls)
       ∧ (fenv.fs (data_files_dir fenv.gpsFilepath) = true
            ∨ fenv.makedirs = .ok ())
       ∧ fenv.expInfo = .error e)

/-- A concrete environment for evaluating the embedding: an arbitrary
install path, clock string, transform answers, an empty filesystem. -/
def testEnv : Env where
  gpsFilepath := "/opt/gps/python/gps/gps_main.py"
  nowStr := "01-01-26_00-00"
  latestCommonTime := fun _ => 7
  position := fun _ _ => (1/2, 1/4, 1/8)
  fs := fun _ => false
  expInfo := "experiment info"

/-- A concrete environment whose transform tree answers the origin for
every lookup; used to separate the transform answer from the hardcoded
target. -/
def cexEnv : Env where
  gpsFilepath := "/opt/gps/python/gps/gps_main.py"
  nowStr := "01-01-26_00-00"
  latestCommonTime := fun _ => 7
  position := fun _ _ => (0, 0, 0)
  fs := fun _ => true
  expInfo := "experiment info"

/-- A concrete fallible environment whose transform-time lookup raises. -/
def failEnv : FEnv where
  gpsFilepath := "/opt/gps/python/gps/gps_main.py"
  nowStr := "01-01-26_00-00"
  initNode := .ok ()
  latestCommonTime := fun _ => .error "tf exception"
  position := fun _ _ => .ok (0, 0, 0)
  fs := fun _ => false
  makedirs := .ok ()
  expInfo := .ok "experiment info"

/-- The `common` dictionary of the run under `env` (before the final
`info` entry). -/
def common_of (env : Env) : List (String × Value) :=
  common_dict env.gpsFilepath env.nowStr

/-- The `agent` dictionary of the run under `env`. -/
def agent_of (env : Env) : List (String × Value) :=
  agent_dict env.gpsFilepath env.nowStr (condLoop env CONDITIONS)

/-- The `algorithm` dictionary of the run under `env`. -/
def algorithm_of (env : Env) : List (String × Value) :=
  algorithm_dict env.gpsFilepath env.nowStr (condLoop env CONDITIONS)

/-- The `algorithm["init_traj_distr"]` dictionary of the run under `env`. -/
def init_traj_distr_of (env : Env) : List (String × Value) :=
  init_traj_distr_dict env.gpsFilepath env.nowStr (condLoop env CONDITIONS)

/- Helper lemmas shared by the claim theorems. -/

/-- With `CONDITIONS = 1`, the loop appends exactly one `x0`, one
`ee_tgt` and one `reset_condition`. -/
theorem condLoop_conditions_eq (env : Env) :
    condLoop env CONDITIONS =
      ⟨[mk_x0 env 0], [mk_ee_tgt], [mk_reset_condition]⟩ := rfl

/-- With a single zero end-effector offset point and the identity target
rotation, the flattened target is the hardcoded goal position itself. -/
theorem mk_ee_tgt_eq : mk_ee_tgt = EE_POS_TGT := by
  norm_num [mk_ee_tgt, get_ee_points, matVec, dot, EE_POINTS, EE_POS_TGT,
    EE_ROT_TGT]

/-- The hardcoded goal position is not the origin. -/
theorem EE_POS_TGT_ne_origin : EE_POS_TGT ≠ [0, 0, 0] := by
  norm_num [EE_POS_TGT]

/-- Sequencing after a successful external call continues with its
result. -/
theorem except_bind_ok {α β : Type} (a : α) (f : α → Except String β) :
    (Except.ok a : Except String α) >>= f = f a := rfl

/-- Sequencing after a failed external call is that failure. -/
theorem except_bind_error {α β : Type} (e : String)
    (f : α → Except String β) :
    (Except.error e : Except String α) >>= f = Except.error e := rfl

/-- C1: the state-space dimension equals the sum of all values declared in
`SENSOR_DIMS` minus the action dimension `SENSOR_DIMS[ACTION]`; with the
declared values this is `6 + 6 + 3 + 3 + 6 - 6 = 18`; and the `x0` vector
built for every condition has exactly this length. -/
theorem state_space_sum_and_x0_length (env : Env) :
    state_space = (SENSOR_DIMS.map Prod.snd).sum - sensorDim .ACTION ∧
    state_space = 18 ∧
    ∀ x0 ∈ (condLoop env CONDITIONS).x0s, x0.length = state_space := by
  refine ⟨rfl, rfl, ?_⟩
  intro x0 hx0
  have h : (condLoop env CONDITIONS).x0s = [mk_x0 env 0] := rfl
  rw [h, List.mem_singleton] at hx0
  subst hx0
  rfl

/-- C1 witness: the theorem applied to a concrete environment and the
single `x0` built by the loop. -/
theorem state_space_sum_and_x0_length_inst :
    (mk_x0 testEnv 0).length = state_space :=
  (state_space_sum_and_x0_length testEnv).2.2 (mk_x0 testEnv 0)
    (List.mem_singleton.mpr rfl)

/-- C2 counterexample: it is false that, for every environment and every
condition, both the end-effector-position slice of `x0` and the appended
target `ee_tgts[i]` equal the position returned by the startup transform
lookup: under the concrete environment `cexEnv`, whose transform tree
answers the origin, the appended target is still the hardcoded
`[0.30, -0.30, 0.80]`. -/
theorem ee_tgt_not_from_transform_cex :
    ¬ (∀ (env : Env), ∀ i, i < CONDITIONS →
        (((condLoop env CONDITIONS).x0s.getD i []).drop joint_dim).take
            (NUM_EE_POINTS * matShape1 EE_POINTS)
          = get_position env i (env.latestCommonTime i) ∧
        (condLoop env CONDITIONS).ee_tgts.getD i []
          = get_position env i (env.latestCommonTime i)) := by
  intro hclaim
  have h := (hclaim cexEnv 0 Nat.one_pos).2
  have h1 : (condLoop cexEnv CONDITIONS).ee_tgts.getD 0 [] = mk_ee_tgt := rfl
  have h2 : get_position cexEnv 0 (cexEnv.latestCommonTime 0) = [0, 0, 0] := rfl
  rw [h1, mk_ee_tgt_eq, h2] at h
  exact EE_POS_TGT_ne_origin h

/-- C2 amended: for every condition, the end-effector-position slice of
`x0` equals the position returned by the startup transform lookup, but the
appended target `ee_tgts[i]` is computed from the hardcoded goal constants
`EE_POS_TGT` and `EE_ROT_TGT` and equals `EE_POS_TGT = [0.30, -0.30,
0.80]`, independent of the transform lookup. -/
theorem x0_from_transform_target_hardcoded (env : Env) (i : ℕ)
    (h : i < CONDITIONS) :
    (((condLoop env CONDITIONS).x0s.getD i []).drop joint_dim).take
        (NUM_EE_POINTS * matShape1 EE_POINTS)
      = get_position env i (env.latestCommonTime i) ∧
    (condLoop env CONDITIONS).ee_tgts.getD i [] = mk_ee_tgt ∧
    mk_ee_tgt = EE_POS_TGT := by
  obtain rfl : i = 0 := Nat.lt_one_iff.mp h
  exact ⟨rfl, rfl, mk_ee_tgt_eq⟩

/-- C2 witness: the amended theorem applied to a concrete environment at
condition 0. -/
theorem x0_from_transform_target_hardcoded_inst :
    (((condLoop testEnv CONDITIONS).x0s.getD 0 []).drop joint_dim).take
        (NUM_EE_POINTS * matShape1 EE_POINTS)
      = get_position testEnv 0 (testEnv.latestCommonTime 0) ∧
    (condLoop testEnv CONDITIONS).ee_tgts.getD 0 [] = EE_POS_TGT :=
  ⟨(x0_from_transform_target_hardcoded testEnv 0 Nat.one_pos).1,
   ((x0_from_transform_target_hardcoded testEnv 0 Nat.one_pos).2.1).trans
     ((x0_from_transform_target_hardcoded testEnv 0 Nat.one_pos).2.2)⟩

/-- C3: after the script finishes, the experiment output directory
`common["data_files_dir"]` exists; when it was absent at the check the
script issued the `os.makedirs` call that creates it, and when it already
existed the filesystem is left exactly as it was (and no `makedirs` call
appears in the trace). -/
theorem data_files_dir_exists_after (env : Env) :
    fsAfter env (data_files_dir env.gpsFilepath) = true ∧
    (env.fs (data_files_dir env.gpsFilepath) = true →
      fsAfter env = env.fs ∧
      ∀ p, Event.makedirs p ∉ scriptTrace env) ∧
    (env.fs (data_files_dir env.gpsFilepath) = false →
      Event.makedirs (data_files_dir env.gpsFilepath) ∈ scriptTrace env) := by
  cases hfs : env.fs (data_files_dir env.gpsFilepath) with
  | true =>
    refine ⟨by simp [fsAfter, hfs], fun _ => ⟨by simp [fsAfter, hfs], ?_⟩,
      fun hc => by simp [hfs] at hc⟩
    intro p
    simp [scriptTrace, loopTrace, iterTrace, hfs]
  | false =>
    refine ⟨by simp [fsAfter, hfs], fun hc => by simp [hfs] at hc, fun _ => ?_⟩
    simp [scriptTrace, loopTrace, iterTrace, hfs]

/-- C3 witness: the theorem applied to a concrete environment in which the
directory is absent, so the creating call is in the trace. -/
theorem data_files_dir_exists_after_inst :
    Event.makedirs (data_files_dir testEnv.gpsFilepath)
      ∈ scriptTrace testEnv :=
  (data_files_dir_exists_after testEnv).2.2 rfl

/-- C4: the only loop of the script runs over the conditions exactly
`common["conditions"]` times (a single condition, since `CONDITIONS = 1`);
every iteration queries the transform tree once and appends exactly one
element to each of `x0s`, `ee_tgts` and `reset_conditions`; afterwards
each of the three lists has length `common["conditions"]`. -/
theorem cond_loop_lengths (env : Env) :
    List.lookup "conditions" (common_of env) = some (.natv CONDITIONS) ∧
    CONDITIONS = 1 ∧
    (∀ n : ℕ,
      (condLoop env (n + 1)).x0s.length = (condLoop env n).x0s.length + 1 ∧
      (condLoop env (n + 1)).ee_tgts.length
        = (condLoop env n).ee_tgts.length + 1 ∧
      (condLoop env (n + 1)).reset_conditions.length
        = (condLoop env n).reset_conditions.length + 1) ∧
    iterTrace.count (.lookupLatestCommonTime WRIST3_LINK PEDESTAL_LINK) = 1 ∧
    (loopTrace CONDITIONS).count
      (.lookupLatestCommonTime WRIST3_LINK PEDESTAL_LINK) = CONDITIONS ∧
    (condLoop env CONDITIONS).x0s.length = CONDITIONS ∧
    (condLoop env CONDITIONS).ee_tgts.length = CONDITIONS ∧
    (condLoop env CONDITIONS).reset_conditions.length = CONDITIONS := by
  refine ⟨rfl, rfl, ?_, rfl, rfl, rfl, rfl, rfl⟩
  intro n
  refine ⟨?_, ?_, ?_⟩ <;> simp [condLoop]

/-- C4 witness: the per-iteration append property at iteration 0 of a
concrete environment. -/
theorem cond_loop_lengths_inst :
    (condLoop testEnv 1).x0s.length = (condLoop testEnv 0).x0s.length + 1 :=
  ((cond_loop_lengths testEnv).2.2.1 0).1

/-- C5: the script defines no error handling: whenever an external call is
the first of the run to fail (node initialization, the latest-common-time
lookup, the position lookup, the directory creation, or the
`generate_experiment_info` helper), the result of the run is exactly the
error of that call — no recovery or retry happens, and no configuration is
produced, since the remainder of the script is unexecuted. -/
theorem external_failure_propagates (fenv : FEnv) (e : String)
    (h : FailsFirst fenv e) : runScript fenv = .error e := by
  rcases h with h | ⟨h1, h2⟩ | ⟨t, h1, h2, h3⟩ | ⟨⟨ls, hls⟩, hfs, hmk⟩ |
    ⟨⟨ls, hls⟩, hdir, hinfo⟩
  · simp [runScript, runLoop, except_bind_ok, except_bind_error, h]
  · simp [runScript, runLoop, except_bind_ok, except_bind_error, h1, h2]
  · simp [runScript, runLoop, except_bind_ok, except_bind_error, h1, h2, h3]
  · simp [runScript, except_bind_ok, except_bind_error, hls, hfs, hmk]
  · rcases hdir with hdir | hdir
    · simp [runScript, except_bind_ok, except_bind_error, hls, hdir, hinfo]
    · cases hfs2 : fenv.fs (data_files_dir fenv.gpsFilepath) <;>
        simp [runScript, except_bind_ok, except_bind_error, hls, hdir,
          hinfo, hfs2]

/-- C5 witness: under the concrete fallible environment whose
latest-common-time lookup raises, the run is exactly that error. -/
theorem external_failure_propagates_inst :
    runScript failEnv = .error "tf exception" :=
  external_failure_propagates failEnv "tf exception"
    (Or.inr (Or.inl ⟨rfl, rfl⟩))

/-- C6: in the external-call trace of the script, the sleep calls are exactly
one per loop iteration (so exactly one in total, since `CONDITIONS = 1`),
every sleep has duration argument 1 second and is immediately followed by
the latest-common-time transform lookup, and the trace contains exactly
one such lookup per iteration — the script blocks on nothing else. -/
theorem sleep_then_lookup_only_blocking (env : Env) :
    (scriptTrace env).filter Event.isSleep = [Event.sleep 1] ∧
    (scriptTrace env).count (Event.sleep 1) = CONDITIONS ∧
    (scriptTrace env).count
      (Event.lookupLatestCommonTime WRIST3_LINK PEDESTAL_LINK) = CONDITIONS ∧
    (∀ k d, (scriptTrace env)[k]? = some (Event.sleep d) →
      d = 1 ∧ (scriptTrace env)[k + 1]?
        = some (Event.lookupLatestCommonTime WRIST3_LINK PEDESTAL_LINK)) := by
  cases hfs : env.fs (data_files_dir env.gpsFilepath) with
  | true =>
    refine ⟨by simp [scriptTrace, loopTrace, iterTrace, hfs, Event.isSleep],
      by simp [scriptTrace, loopTrace, iterTrace, hfs, CONDITIONS],
      by simp [scriptTrace, loopTrace, iterTrace, hfs, CONDITIONS], ?_⟩
    intro k d h
    simp only [scriptTrace, loopTrace, iterTrace, hfs] at h ⊢
    rcases k with _ | _ | _ | _ | _ | _ | _ | k <;> simp_all
  | false =>
    refine ⟨by simp [scriptTrace, loopTrace, iterTrace, hfs, Event.isSleep],
      by simp [scriptTrace, loopTrace, iterTrace, hfs, CONDITIONS],
      by simp [scriptTrace, loopTrace, iterTrace, hfs, CONDITIONS], ?_⟩
    intro k d h
    simp only [scriptTrace, loopTrace, iterTrace, hfs] at h ⊢
    rcases k with _ | _ | _ | _ | _ | _ | _ | _ | k <;> simp_all

/-- C6 witness: the sleep sub-trace of a concrete run is the single
one-second sleep. -/
theorem sleep_then_lookup_only_blocking_inst :
    (scriptTrace testEnv).filter Event.isSleep = [Event.sleep 1] :=
  (sleep_then_lookup_only_blocking testEnv).1

/-- C7: the top-level `config` dictionary contains at least the keys
`agent`, `algorithm`, `common`, `num_samples`, `iterations` and `gui_on`;
`config["iterations"]` equals `algorithm["iterations"]`,
`config["common"]` is the `common` dictionary (with its final `info`
entry), `config["agent"]` is the `agent` dictionary, and
`config["num_samples"]` equals `SAMPLE_COUNT`. -/
theorem config_top_keys (env : Env) :
    (List.lookup "agent" (script env)).isSome = true ∧
    (List.lookup "algorithm" (script env)).isSome = true ∧
    (List.lookup "common" (script env)).isSome = true ∧
    (List.lookup "num_samples" (script env)).isSome = true ∧
    (List.lookup "iterations" (script env)).isSome = true ∧
    (List.lookup "gui_on" (script env)).isSome = true ∧
    dget (script env) "iterations" = dget (algorithm_of env) "iterations" ∧
    dget (script env) "common"
      = .dict (common_final env.gpsFilepath env.nowStr env.expInfo) ∧
    dget (script env) "agent" = .dict (agent_of env) ∧
    dget (script env) "num_samples" = .natv SAMPLE_COUNT :=
  ⟨rfl, rfl, rfl, rfl, rfl, rfl, rfl, rfl, rfl, rfl⟩

/-- C7 witness: the theorem applied to a concrete environment. -/
theorem config_top_keys_inst :
    dget (script testEnv) "num_samples" = .natv SAMPLE_COUNT :=
  (config_top_keys testEnv).2.2.2.2.2.2.2.2.2

/-- C8: for every condition, the constructed initial-state vector `x0` is
zero everywhere except the end-effector-position slice: indices 0 through
5 (joint angles) are zeros, indices 6 through 11 (joint velocities) and 15
through 17 (end-effector point velocities) remain zero, and only indices
12 through 14 receive the position returned by the transform lookup. -/
theorem x0_zero_outside_ee_slice (env : Env) :
    ∀ x0 ∈ (condLoop env CONDITIONS).x0s, ∃ i, i < CONDITIONS ∧
      x0 = mk_x0 env i ∧
      (∀ j, j < 6 → x0.getD j 1 = 0) ∧
      (∀ j, 6 ≤ j → j < 12 → x0.getD j 1 = 0) ∧
      (∀ j, 15 ≤ j → j < 18 → x0.getD j 1 = 0) ∧
      (∀ j, j < 3 → x0.getD (12 + j) 1
        = (get_position env i (env.latestCommonTime i)).getD j 0) := by
  intro x0 hx0
  have h : (condLoop env CONDITIONS).x0s = [mk_x0 env 0] := rfl
  rw [h, List.mem_singleton] at hx0
  subst hx0
  refine ⟨0, Nat.one_pos, rfl, ?_, ?_, ?_, ?_⟩
  · intro j hj; interval_cases j <;> rfl
  · intro j hj hj2; interval_cases j <;> rfl
  · intro j hj hj2; interval_cases j <;> rfl
  · intro j hj; interval_cases j <;> rfl

/-- C8 witness: the theorem applied to a concrete environment, reading
back an end-effector coordinate and a zero entry of the built `x0`. -/
theorem x0_zero_outside_ee_slice_inst :
    (mk_x0 testEnv 0).getD 13 1 = 1/4 ∧ (mk_x0 testEnv 0).getD 5 1 = 0 := by
  obtain ⟨i, hi, hx, h05, _, _, hee⟩ :=
    x0_zero_outside_ee_slice testEnv (mk_x0 testEnv 0)
      (List.mem_singleton.mpr rfl)
  obtain rfl : i = 0 := Nat.lt_one_iff.mp hi
  refine ⟨?_, h05 5 (by norm_num)⟩
  have h13 := hee 1 (by norm_num)
  have hr : (get_position testEnv 0 (testEnv.latestCommonTime 0)).getD 1 0
      = 1/4 := rfl
  rw [← hr]
  simpa using h13

/-- C9: every element appended to `reset_conditions` maps `JOINT_ANGLES`
to the six-element `INITIAL_JOINTS` list and `JOINT_VELOCITIES` to the
empty list, so the length of the `JOINT_VELOCITIES` entry (0) differs from
the declared `SENSOR_DIMS[JOINT_VELOCITIES]` (6). -/
theorem reset_condition_velocities_mismatch (env : Env) :
    ∀ rc ∈ (condLoop env CONDITIONS).reset_conditions,
      rc.lookup SensorType.JOINT_ANGLES = some INITIAL_JOINTS ∧
      INITIAL_JOINTS.length = 6 ∧
      rc.lookup SensorType.JOINT_VELOCITIES = some ([] : List ℚ) ∧
      ((rc.lookup SensorType.JOINT_VELOCITIES).getD []).length = 0 ∧
      sensorDim .JOINT_VELOCITIES = 6 ∧
      ((rc.lookup SensorType.JOINT_VELOCITIES).getD []).length
        ≠ sensorDim .JOINT_VELOCITIES := by
  intro rc hrc
  have h : (condLoop env CONDITIONS).reset_conditions
      = [mk_reset_condition] := rfl
  rw [h, List.mem_singleton] at hrc
  subst hrc
  exact ⟨rfl, rfl, rfl, rfl, rfl, by decide⟩

/-- C9 witness: the mismatch read back on the concrete
`reset_condition` dictionary built by the loop. -/
theorem reset_condition_velocities_mismatch_inst :
    ((mk_reset_condition.lookup SensorType.JOINT_VELOCITIES).getD []).length
      ≠ sensorDim .JOINT_VELOCITIES :=
  (reset_condition_velocities_mismatch testEnv mk_reset_condition
    (List.mem_singleton.mpr rfl)).2.2.2.2.2

/-- C10: every configuration field that appears in more than one
dictionary is internally consistent in the final config:
`agent["conditions"] = algorithm["conditions"] = common["conditions"]`,
`algorithm["init_traj_distr"]["dt"] = agent["dt"]`,
`algorithm["init_traj_distr"]["T"] = agent["T"]`,
`agent["dU"] = SENSOR_DIMS[ACTION]` = the length of
`algorithm["init_traj_distr"]["init_acc"]`, and
`config["iterations"] = algorithm["iterations"]`. -/
theorem config_shared_fields_consistent (env : Env) :
    dget (script env) "agent" = .dict (agent_of env) ∧
    dget (script env) "algorithm" = .dict (algorithm_of env) ∧
    dget (algorithm_of env) "init_traj_distr"
      = .dict (init_traj_distr_of env) ∧
    dget (agent_of env) "conditions" = dget (algorithm_of env) "conditions" ∧
    dget (algorithm_of env) "conditions" = dget (common_of env) "conditions" ∧
    dget (init_traj_distr_of env) "dt" = dget (agent_of env) "dt" ∧
    dget (init_traj_distr_of env) "T" = dget (agent_of env) "T" ∧
    dget (agent_of env) "dU" = .natv (sensorDim .ACTION) ∧
    List.lookup "init_acc" (init_traj_distr_of env)
      = some (.vec (List.replicate (sensorDim .ACTION) (0 : ℚ))) ∧
    (List.replicate (sensorDim .ACTION) (0 : ℚ)).length
      = sensorDim .ACTION ∧
    dget (script env) "iterations" = dget (algorithm_of env) "iterations" :=
  ⟨rfl, rfl, rfl, rfl, rfl, rfl, rfl, rfl, rfl, rfl, rfl⟩

/-- C10 witness: the theorem applied to a concrete environment. -/
theorem config_shared_fields_consistent_inst :
    dget (init_traj_distr_of testEnv) "dt" = dget (agent_of testEnv) "dt" :=
  (config_shared_fields_consistent testEnv).2.2.2.2.2.1

end AuboGPS
